import Mathlib

/-!
# Verification of the `birtrashclient` request engine

Shallow embedding of `src/birtrashclient/client.py` (BirTrashClient):
the retrying request executor `_request_with_retry`, the `authenticate`
login exchange, the `_normalize_address` string transform, the request
descriptors built by the domain operations, and the `search_address`
result post-processing.

Network effects are modelled by an environment: `env : Nat → Outcome β`
gives the outcome of the i-th network call of the retry loop, and
`authEnv : Nat → LoginOutcome` gives the outcome of the j-th login POST
issued by `authenticate`.  Back-off delays are modelled in `ℚ`
(multiplication of the float `backoff_factor` by a power of two is exact,
so the rationals are a faithful carrier for the delay values).
-/

namespace BirTrash

/-- The transient status set, `TRANSIENT_STATUS_CODES = {500, 502, 503, 504}`
(client.py line 14). -/
def TRANSIENT_STATUS_CODES : List Nat := [500, 502, 503, 504]

/-- Outcome of one network call made by the retry loop: either a response
with an HTTP status and a (pre-parsed) JSON body of type `β`, or a raised
`aiohttp.ClientError` / `asyncio.TimeoutError`, identified by a tag. -/
inductive Outcome (β : Type) where
  | resp (status : Nat) (body : β)
  | exc (tag : Nat)
deriving DecidableEq, Repr

/-- A recorded failure (the Python exception object stored in
`last_exception`):
* `connError msg` — a `BirTrashConnectionError(msg)` built in the transient
  branch (client.py lines 117–119);
* `httpStatus s` — the `aiohttp.ClientResponseError` raised by
  `response.raise_for_status()` for a status `≥ 400` (line 123), which is an
  `aiohttp.ClientError` and hence caught by the `except` clause on line 126;
* `netExc tag` — a transport-level `aiohttp.ClientError` or
  `asyncio.TimeoutError`. -/
inductive Failure where
  | connError (msg : String)
  | httpStatus (status : Nat)
  | netExc (tag : Nat)
deriving DecidableEq, Repr

/-- Authentication failure (`BirTrashAuthError`, client.py lines 161–168):
`transport c` wraps the underlying cause (the `except (aiohttp.ClientError,
asyncio.TimeoutError)` branch, message `"Authentication failed: …"`), and
`noToken` is the `KeyError` branch. -/
inductive AuthErr where
  | transport (cause : Failure)
  | noToken
deriving DecidableEq, Repr

/-- The message attached to a `BirTrashAuthError` (client.py lines 162–167). -/
def authErrMsg : AuthErr → String
  | .transport _ => "Authentication failed"
  | .noToken => "Authentication succeeded but response contained no Token header"

/-- The result of `_request_with_retry`: a parsed JSON body, a raised
`BirTrashConnectionError(msg)` chaining an optional cause
(`raise … from last_exception`, lines 139–141), or a propagated
`BirTrashAuthError` out of the 401 branch (line 102). -/
inductive ExecResult (β : Type) where
  | success (body : β)
  | connectionError (msg : String) (cause : Option Failure)
  | authError (e : AuthErr)
deriving DecidableEq, Repr

/-- The mutable client attributes relevant to authentication
(client.py lines 51–53). -/
structure ClientState where
  app_id : String
  contractor_id : String
  token : Option String
deriving DecidableEq, Repr

/-- Outcome of the login POST issued by `authenticate`: a response with a
status and response headers, or a raised transport/timeout exception. -/
inductive LoginOutcome where
  | resp (status : Nat) (respHeaders : List (String × String))
  | exc (tag : Nat)
deriving DecidableEq, Repr

/-- First value bound to key `k` in an association list (Python `dict`
lookup; dict keys are unique so the first match is the only one). -/
def getKey {α : Type} (k : String) : List (String × α) → Option α
  | [] => none
  | (k', v) :: rest => if k' = k then some v else getKey k rest

/-- Python `dict` assignment `h[k] = v`: replace the value at an existing
key in place, otherwise append the new entry. -/
def setKey {α : Type} (h : List (String × α)) (k : String) (v : α) :
    List (String × α) :=
  if h.any (fun p => p.1 = k) then
    h.map (fun p => if p.1 = k then (k, v) else p)
  else h ++ [(k, v)]

/-- `authenticate` (client.py lines 143–168): issue the login POST; on a
transport/timeout exception, or on `raise_for_status()` raising for a
status `≥ 400`, raise `BirTrashAuthError` wrapping the cause; otherwise
read the `Token` response header — a missing header is a `KeyError`,
re-raised as the no-token `BirTrashAuthError`; on success assign
`self.token`.  The returned `ClientState` is the client after the call;
the assignment `self.token = response.headers["Token"]` runs only after
the header lookup succeeded, so every failing branch leaves the client
unchanged. -/
def authenticate (st : ClientState) (o : LoginOutcome) :
    Except AuthErr Unit × ClientState :=
  match o with
  | .exc tag => (.error (.transport (.netExc tag)), st)
  | .resp status hdrs =>
      if 400 ≤ status then (.error (.transport (.httpStatus status)), st)
      else
        match getKey "Token" hdrs with
        | none => (.error .noToken, st)
        | some t => (.ok (), { st with token := some t })

/-- Configuration fixed at construction (client.py lines 30–57). -/
structure Config where
  app_id : String
  contractor_id : String
  retries : Nat
  backoff_factor : ℚ
deriving DecidableEq, Repr

/-- Observable state of one run of the retry loop: the client token
(`self.token`), the request's `kwargs["headers"]` dict (`none` when the
caller passed no headers), the accumulated `last_exception`, and the
trace — number of network calls made by the loop, number of
`authenticate()` calls, and the list of back-off sleep durations in
order. -/
structure LoopSt where
  token : Option String
  headers : Option (List (String × Option String))
  lastExc : Option Failure
  calls : Nat
  authCalls : Nat
  sleeps : List ℚ
deriving DecidableEq, Repr

/-- One pass of the `for attempt in range(self.retries + 1)` loop of
`_request_with_retry` (client.py lines 89–141), recursing on the number of
remaining attempts (`fuel`); `attempt` is the current 0-based index.
Branches in source order:
* a transport/timeout exception (`except`, lines 126–137): record it as
  `last_exception`, sleep `backoff_factor * 2 ** attempt` only when
  `attempt < self.retries`, continue;
* status 401 (lines 97–105): call `authenticate`; a `BirTrashAuthError`
  propagates immediately; on success write the new token into the headers
  dict when one was supplied and it is non-empty
  (`if "headers" in kwargs and kwargs["headers"]`), continue with no sleep;
* a transient status (lines 107–121): record
  `BirTrashConnectionError("Server returned <status>")`, sleep
  unconditionally, continue;
* any other status `≥ 400`: `response.raise_for_status()` (line 123) raises
  `aiohttp.ClientResponseError`, a subclass of `aiohttp.ClientError`, so it
  is caught by the same `except` clause as a transport error: recorded,
  slept on when `attempt < self.retries`, and retried;
* otherwise (status `< 400`): return the parsed body (line 124).
When the fuel runs out, raise
`BirTrashConnectionError(f"Request failed after {retries + 1} attempts")`
from `last_exception` (lines 139–141). -/
def requestLoop {β : Type} (cfg : Config) (env : Nat → Outcome β)
    (authEnv : Nat → LoginOutcome) :
    Nat → Nat → LoopSt → ExecResult β × LoopSt
  | 0, _attempt, st =>
      (.connectionError
        ("Request failed after " ++ toString (cfg.retries + 1) ++ " attempts")
        st.lastExc, st)
  | fuel + 1, attempt, st =>
      match env st.calls with
      | .exc tag =>
          requestLoop cfg env authEnv fuel (attempt + 1)
            { st with
              calls := st.calls + 1
              lastExc := some (.netExc tag)
              sleeps :=
                if attempt < cfg.retries then
                  st.sleeps ++ [cfg.backoff_factor * 2 ^ attempt]
                else st.sleeps }
      | .resp status body =>
          if status = 401 then
            match authenticate ⟨cfg.app_id, cfg.contractor_id, st.token⟩
                (authEnv st.authCalls) with
            | (.error e, _) =>
                (.authError e,
                  { st with calls := st.calls + 1, authCalls := st.authCalls + 1 })
            | (.ok _, c') =>
                requestLoop cfg env authEnv fuel (attempt + 1)
                  { st with
                    calls := st.calls + 1
                    authCalls := st.authCalls + 1
                    token := c'.token
                    headers :=
                      match st.headers with
                      | some h =>
                          if h.isEmpty then some h
                          else some (setKey h "Token" c'.token)
                      | none => none }
          else if status ∈ TRANSIENT_STATUS_CODES then
            requestLoop cfg env authEnv fuel (attempt + 1)
              { st with
                calls := st.calls + 1
                lastExc :=
                  some (.connError ("Server returned " ++ toString status))
                sleeps := st.sleeps ++ [cfg.backoff_factor * 2 ^ attempt] }
          else if 400 ≤ status then
            requestLoop cfg env authEnv fuel (attempt + 1)
              { st with
                calls := st.calls + 1
                lastExc := some (.httpStatus status)
                sleeps :=
                  if attempt < cfg.retries then
                    st.sleeps ++ [cfg.backoff_factor * 2 ^ attempt]
                  else st.sleeps }
          else (.success body, { st with calls := st.calls + 1 })

/-- `_request_with_retry` (client.py lines 66–141): run the loop for
`retries + 1` attempts starting from attempt 0, fresh trace, with the
client's current token and the headers the caller supplied. -/
def _request_with_retry {β : Type} (cfg : Config) (env : Nat → Outcome β)
    (authEnv : Nat → LoginOutcome) (token0 : Option String)
    (headers0 : Option (List (String × Option String))) :
    ExecResult β × LoopSt :=
  requestLoop cfg env authEnv (cfg.retries + 1) 0
    { token := token0, headers := headers0, lastExc := none,
      calls := 0, authCalls := 0, sleeps := [] }

/-- Python `str.strip()` for the whitespace characters in scope here:
drop whitespace from both ends. -/
def pyStrip (l : List Char) : List Char :=
  ((l.dropWhile Char.isWhitespace).reverse.dropWhile Char.isWhitespace).reverse

/-- `_normalize_address` (client.py lines 170–176):
`re.sub(r"(\d)([A-Za-z])$", r"\1 \2", address.strip())`.  The pattern is
anchored at the end of the string, so it has at most one match: when the
stripped string ends in a digit (`\d`, here over the ASCII range matched by
`Char.isDigit`) immediately followed by an ASCII letter (`[A-Za-z]`, which
is exactly `Char.isAlpha`), a single space is inserted between the two;
otherwise the stripped string is returned unchanged. -/
def _normalize_address (address : List Char) : List Char :=
  match (pyStrip address).reverse with
  | l :: d :: rest =>
      if d.isDigit && l.isAlpha then (l :: ' ' :: d :: rest).reverse
      else pyStrip address
  | _ => pyStrip address

/-- A request descriptor: everything a domain operation passes to
`_request_with_retry` (or, for login, to `session.post`). -/
structure RequestDescriptor where
  method : String
  url : String
  params : List (String × String)
  jsonBody : List (String × String)
  headers : Option (List (String × Option String))
deriving DecidableEq, Repr

/-- `self.base_url` (client.py line 49). -/
def base_url : String := "https://webservice.bir.no/api"

/-- The login POST built by `authenticate` (client.py lines 151–157):
`session.post(f"{base_url}/login", json={"applikasjonsId": app_id,
"oppdragsgiverId": contractor_id})`. -/
def loginRequest (c : ClientState) : RequestDescriptor :=
  { method := "post"
    url := base_url ++ "/login"
    params := []
    jsonBody :=
      [("applikasjonsId", c.app_id), ("oppdragsgiverId", c.contractor_id)]
    headers := none }

/-- The GET built by `search_addresses` (client.py lines 195–200):
`("get", f"{base_url}/eiendommer", params={"adresse": normalized},
headers={"Token": token})`.  The string argument is carried as `List Char`
to feed `_normalize_address`. -/
def searchAddressesRequest (c : ClientState) (address : List Char) :
    RequestDescriptor :=
  { method := "get"
    url := base_url ++ "/eiendommer"
    params := [("adresse", String.mk (_normalize_address address))]
    jsonBody := []
    headers := some [("Token", c.token)] }

/-- The GET built by `get_calendar` (client.py lines 238–247):
`("get", f"{base_url}/tomminger", params={"datoFra": from_date,
"datoTil": to_date, "eiendomId": address_id}, headers={"Token": token})`. -/
def getCalendarRequest (c : ClientState) (address_id from_date to_date : String) :
    RequestDescriptor :=
  { method := "get"
    url := base_url ++ "/tomminger"
    params :=
      [("datoFra", from_date), ("datoTil", to_date), ("eiendomId", address_id)]
    jsonBody := []
    headers := some [("Token", c.token)] }

/-- A Python exception class raised by plain sequence indexing. -/
inductive PyErr where
  | indexError
deriving DecidableEq, Repr

/-- The post-processing of `search_address` (client.py lines 219–220):
`result = await self.search_addresses(address); return result[0].get("id")`.
The network part is abstracted by the result list `search_addresses`
returned (a JSON array of flat objects).  `result[0]` raises `IndexError`
on an empty list; `dict.get("id")` returns `None` when the key is
missing. -/
def search_address_of_result (result : List (List (String × String))) :
    Except PyErr (Option String) :=
  match result with
  | [] => .error .indexError
  | obj :: _ => .ok (getKey "id" obj)

/-- The token a login outcome would store: `none` when `authenticate` would
raise, `some t` when it would store `t`. -/
def loginToken : LoginOutcome → Option String
  | .exc _ => none
  | .resp status hdrs => if 400 ≤ status then none else getKey "Token" hdrs

/-! ### Concrete fixtures used by witnesses and counterexamples -/

/-- A client with `retries = 3, backoff_factor = 2` — the concrete scenario
of spec section 8. -/
def cfgW : Config := ⟨"app", "contr", 3, 2⟩

/-- A small client with `retries = 1, backoff_factor = 1`. -/
def cfg1 : Config := ⟨"app", "contr", 1, 1⟩

/-- Three 503 responses, then a 200 whose parsed body is `42`. -/
def envT200 : Nat → Outcome Nat :=
  fun i => if i < 3 then .resp 503 0 else .resp 200 42

/-- Every call returns a 503. -/
def env503 : Nat → Outcome Nat := fun _ => .resp 503 0

/-- Every call returns a 404. -/
def env404 : Nat → Outcome Nat := fun _ => .resp 404 0

/-- Every call returns a 401. -/
def env401 : Nat → Outcome Nat := fun _ => .resp 401 0

/-- A 401 on the first call, then a 200 whose parsed body is `7`. -/
def env401then200 : Nat → Outcome Nat :=
  fun i => if i = 0 then .resp 401 0 else .resp 200 7

/-- Every call raises a transport exception (tag 5). -/
def envExc : Nat → Outcome Nat := fun _ => .exc 5

/-- Every login POST succeeds with a `Token: new` response header. -/
def authEnvOk : Nat → LoginOutcome := fun _ => .resp 200 [("Token", "new")]

/-- Every login POST raises a transport exception (tag 9). -/
def authEnvFail : Nat → LoginOutcome := fun _ => .exc 9

/-- A loop state mid-run: token `"old"`, a supplied non-empty headers dict,
nothing recorded yet. -/
def st0 : LoopSt := ⟨some "old", some [("Token", some "old")], none, 0, 0, []⟩

/-! ## Step lemmas for the retry loop -/

section StepLemmas

variable {β : Type} (cfg : Config) (env : Nat → Outcome β)
variable (authEnv : Nat → LoginOutcome)

lemma requestLoop_zero (attempt : Nat) (st : LoopSt) :
    requestLoop cfg env authEnv 0 attempt st =
      (.connectionError
        ("Request failed after " ++ toString (cfg.retries + 1) ++ " attempts")
        st.lastExc, st) := rfl

lemma requestLoop_exc (fuel attempt : Nat) (st : LoopSt) (tag : Nat)
    (h : env st.calls = .exc tag) :
    requestLoop cfg env authEnv (fuel + 1) attempt st =
      requestLoop cfg env authEnv fuel (attempt + 1)
        { st with
          calls := st.calls + 1
          lastExc := some (.netExc tag)
          sleeps :=
            if attempt < cfg.retries then
              st.sleeps ++ [cfg.backoff_factor * 2 ^ attempt]
            else st.sleeps } := by
  simp only [requestLoop, h]

lemma requestLoop_auth_ok (fuel attempt : Nat) (st : LoopSt) (body : β)
    (c' : ClientState)
    (h : env st.calls = .resp 401 body)
    (hauth : authenticate ⟨cfg.app_id, cfg.contractor_id, st.token⟩
        (authEnv st.authCalls) = (.ok (), c')) :
    requestLoop cfg env authEnv (fuel + 1) attempt st =
      requestLoop cfg env authEnv fuel (attempt + 1)
        { st with
          calls := st.calls + 1
          authCalls := st.authCalls + 1
          token := c'.token
          headers :=
            match st.headers with
            | some h =>
                if h.isEmpty then some h
                else some (setKey h "Token" c'.token)
            | none => none } := by
  simp only [requestLoop, h, hauth, eq_self_iff_true, if_true]

lemma requestLoop_auth_err (fuel attempt : Nat) (st : LoopSt) (body : β)
    (e : AuthErr) (c' : ClientState)
    (h : env st.calls = .resp 401 body)
    (hauth : authenticate ⟨cfg.app_id, cfg.contractor_id, st.token⟩
        (authEnv st.authCalls) = (.error e, c')) :
    requestLoop cfg env authEnv (fuel + 1) attempt st =
      (.authError e,
        { st with calls := st.calls + 1, authCalls := st.authCalls + 1 }) := by
  simp only [requestLoop, h, hauth, eq_self_iff_true, if_true]

lemma mem_transient_iff {c : Nat} :
    c ∈ TRANSIENT_STATUS_CODES ↔ c = 500 ∨ c = 502 ∨ c = 503 ∨ c = 504 := by
  simp [TRANSIENT_STATUS_CODES]

lemma transient_ne_401 {c : Nat} (hc : c ∈ TRANSIENT_STATUS_CODES) : c ≠ 401 := by
  rcases mem_transient_iff.mp hc with rfl | rfl | rfl | rfl <;> decide

lemma requestLoop_transient (fuel attempt : Nat) (st : LoopSt) (c : Nat)
    (body : β) (h : env st.calls = .resp c body)
    (hc : c ∈ TRANSIENT_STATUS_CODES) :
    requestLoop cfg env authEnv (fuel + 1) attempt st =
      requestLoop cfg env authEnv fuel (attempt + 1)
        { st with
          calls := st.calls + 1
          lastExc := some (.connError ("Server returned " ++ toString c))
          sleeps := st.sleeps ++ [cfg.backoff_factor * 2 ^ attempt] } := by
  simp only [requestLoop, h, if_neg (transient_ne_401 hc), if_pos hc]

lemma requestLoop_httpErr (fuel attempt : Nat) (st : LoopSt) (c : Nat)
    (body : β) (h : env st.calls = .resp c body) (h401 : c ≠ 401)
    (ht : c ∉ TRANSIENT_STATUS_CODES) (h400 : 400 ≤ c) :
    requestLoop cfg env authEnv (fuel + 1) attempt st =
      requestLoop cfg env authEnv fuel (attempt + 1)
        { st with
          calls := st.calls + 1
          lastExc := some (.httpStatus c)
          sleeps :=
            if attempt < cfg.retries then
              st.sleeps ++ [cfg.backoff_factor * 2 ^ attempt]
            else st.sleeps } := by
  simp only [requestLoop, h, if_neg h401, if_neg ht, if_pos h400]

lemma requestLoop_ok (fuel attempt : Nat) (st : LoopSt) (c : Nat) (body : β)
    (h : env st.calls = .resp c body) (h400 : c < 400) :
    requestLoop cfg env authEnv (fuel + 1) attempt st =
      (.success body, { st with calls := st.calls + 1 }) := by
  have h401 : c ≠ 401 := by omega
  have ht : c ∉ TRANSIENT_STATUS_CODES := by
    intro hc
    rcases mem_transient_iff.mp hc with rfl | rfl | rfl | rfl <;> omega
  simp only [requestLoop, h, if_neg h401, if_neg ht, if_neg (by omega : ¬ 400 ≤ c)]

end StepLemmas

/-! ## Run lemmas for whole executions of the retry loop -/

lemma authenticate_of_loginToken_some (st : ClientState) (o : LoginOutcome)
    (t : String) (h : loginToken o = some t) :
    authenticate st o = (.ok (), { st with token := some t }) := by
  cases o with
  | exc tag => simp [loginToken] at h
  | resp status hdrs =>
      simp only [loginToken] at h
      by_cases h400 : 400 ≤ status
      · simp [h400] at h
      · rw [if_neg h400] at h
        simp [authenticate, if_neg h400, h]

lemma delays_assemble (b : ℚ) (a k : Nat) (pre : List ℚ) :
    (pre ++ [b * 2 ^ a]) ++ (List.range k).map (fun i => b * 2 ^ (a + 1 + i))
      = pre ++ (List.range (k + 1)).map (fun i => b * 2 ^ (a + i)) := by
  have hfun : ((fun i => b * 2 ^ (a + i)) ∘ Nat.succ)
      = fun i => b * 2 ^ (a + 1 + i) := by
    funext i
    simp only [Function.comp_apply]
    congr 1
    congr 1
    omega
  rw [List.append_assoc, List.range_succ_eq_map, List.map_cons, List.map_map,
    hfun, List.singleton_append]
  simp

/-- `k` transient responses followed by a 200: the loop returns the parsed
body, having made `k + 1` calls and slept with the doubling delays for
attempts `a, …, a + k - 1`; the token, headers and auth-call count are
untouched. -/
lemma run_transient_then_ok {β : Type} (cfg : Config) (env : Nat → Outcome β)
    (authEnv : Nat → LoginOutcome) (body : β) :
    ∀ (k fuel a : Nat) (st : LoopSt), k < fuel →
      (∀ i, i < k →
        ∃ c b, c ∈ TRANSIENT_STATUS_CODES ∧ env (st.calls + i) = .resp c b) →
      env (st.calls + k) = .resp 200 body →
      (requestLoop cfg env authEnv fuel a st).1 = .success body
      ∧ (requestLoop cfg env authEnv fuel a st).2.calls = st.calls + (k + 1)
      ∧ (requestLoop cfg env authEnv fuel a st).2.sleeps
          = st.sleeps
            ++ (List.range k).map (fun i => cfg.backoff_factor * 2 ^ (a + i))
      ∧ (requestLoop cfg env authEnv fuel a st).2.authCalls = st.authCalls
      ∧ (requestLoop cfg env authEnv fuel a st).2.token = st.token
      ∧ (requestLoop cfg env authEnv fuel a st).2.headers = st.headers := by
  intro k
  induction k with
  | zero =>
      intro fuel a st hf _ h200
      obtain ⟨fuel', rfl⟩ : ∃ f, fuel = f + 1 := ⟨fuel - 1, by omega⟩
      rw [requestLoop_ok cfg env authEnv fuel' a st 200 body
        (by simpa using h200) (by omega)]
      simp
  | succ k ih =>
      intro fuel a st hf htr h200
      obtain ⟨fuel', rfl⟩ : ∃ f, fuel = f + 1 := ⟨fuel - 1, by omega⟩
      obtain ⟨c, b, hc, henv⟩ := htr 0 (Nat.succ_pos k)
      rw [Nat.add_zero] at henv
      rw [requestLoop_transient cfg env authEnv fuel' a st c b henv hc]
      have harg : ∀ i, i < k →
          ∃ c' b', c' ∈ TRANSIENT_STATUS_CODES
            ∧ env (st.calls + 1 + i) = .resp c' b' := by
        intro i hi
        obtain ⟨c', b', hc', he'⟩ := htr (i + 1) (by omega)
        exact ⟨c', b', hc', by rw [show st.calls + 1 + i = st.calls + (i + 1) by omega]; exact he'⟩
      have h200' : env (st.calls + 1 + k) = .resp 200 body := by
        rw [show st.calls + 1 + k = st.calls + (k + 1) by omega]; exact h200
      obtain ⟨r1, r2, r3, r4, r5, r6⟩ :=
        ih fuel' (a + 1)
          { st with
            calls := st.calls + 1
            lastExc := some (.connError ("Server returned " ++ toString c))
            sleeps := st.sleeps ++ [cfg.backoff_factor * 2 ^ a] }
          (by omega) harg h200'
      refine ⟨r1, by rw [r2]; dsimp only; omega, ?_, r4, r5, r6⟩
      rw [r3]
      exact delays_assemble cfg.backoff_factor a k st.sleeps

/-- Every response transient: the loop exhausts its fuel, makes one call
per unit of fuel, sleeps on every attempt (including the last), and ends
in the terminal `BirTrashConnectionError` chaining the failure recorded
for the last status seen. -/
lemma run_all_transient {β : Type} (cfg : Config) (env : Nat → Outcome β)
    (authEnv : Nat → LoginOutcome) (sf : Nat → Nat) (bf : Nat → β)
    (henv : ∀ i, env i = .resp (sf i) (bf i))
    (htr : ∀ i, sf i ∈ TRANSIENT_STATUS_CODES) :
    ∀ (fuel a m : Nat) (st : LoopSt), 0 < fuel → st.calls + fuel = m + 1 →
      (requestLoop cfg env authEnv fuel a st).1
        = .connectionError
            ("Request failed after " ++ toString (cfg.retries + 1) ++ " attempts")
            (some (.connError ("Server returned " ++ toString (sf m))))
      ∧ (requestLoop cfg env authEnv fuel a st).2.calls = st.calls + fuel
      ∧ (requestLoop cfg env authEnv fuel a st).2.sleeps
          = st.sleeps
            ++ (List.range fuel).map (fun i => cfg.backoff_factor * 2 ^ (a + i))
      ∧ (requestLoop cfg env authEnv fuel a st).2.authCalls = st.authCalls := by
  intro fuel
  induction fuel with
  | zero => intro a m st h; omega
  | succ fuel ih =>
      intro a m st _ hm
      rw [requestLoop_transient cfg env authEnv fuel a st (sf st.calls)
        (bf st.calls) (henv st.calls) (htr st.calls)]
      cases fuel with
      | zero =>
          obtain rfl : m = st.calls := by omega
          rw [requestLoop_zero]
          refine ⟨by simp, by simp, ?_, by simp⟩
          simp [List.range_succ]
      | succ fuel' =>
          obtain ⟨r1, r2, r3, r4⟩ := ih (a + 1) m
            { st with
              calls := st.calls + 1
              lastExc :=
                some (.connError ("Server returned " ++ toString (sf st.calls)))
              sleeps := st.sleeps ++ [cfg.backoff_factor * 2 ^ a] }
            (Nat.succ_pos fuel') (by dsimp only; omega)
          refine ⟨r1, by rw [r2]; dsimp only; omega, ?_, r4⟩
          rw [r3]
          exact delays_assemble cfg.backoff_factor a (fuel' + 1) st.sleeps

/-- Every response a 401 answered by a successful re-authentication: the
loop exhausts its fuel with one network call and one `authenticate()` call
per attempt, never sleeps, never records a failure, and ends in the
terminal `BirTrashConnectionError` with no chained cause. -/
lemma run_all_401 {β : Type} (cfg : Config) (env : Nat → Outcome β)
    (authEnv : Nat → LoginOutcome) (bf : Nat → β)
    (henv : ∀ i, env i = .resp 401 (bf i))
    (hauth : ∀ j, (loginToken (authEnv j)).isSome) :
    ∀ (fuel a : Nat) (st : LoopSt), st.lastExc = none →
      (requestLoop cfg env authEnv fuel a st).1
        = .connectionError
            ("Request failed after " ++ toString (cfg.retries + 1) ++ " attempts")
            none
      ∧ (requestLoop cfg env authEnv fuel a st).2.calls = st.calls + fuel
      ∧ (requestLoop cfg env authEnv fuel a st).2.sleeps = st.sleeps
      ∧ (requestLoop cfg env authEnv fuel a st).2.authCalls
          = st.authCalls + fuel := by
  intro fuel
  induction fuel with
  | zero =>
      intro a st hle
      rw [requestLoop_zero]
      simp [hle]
  | succ fuel ih =>
      intro a st hle
      obtain ⟨t, ht⟩ := Option.isSome_iff_exists.mp (hauth st.authCalls)
      rw [requestLoop_auth_ok cfg env authEnv fuel a st (bf st.calls)
        { app_id := cfg.app_id, contractor_id := cfg.contractor_id,
          token := some t }
        (henv st.calls)
        (authenticate_of_loginToken_some _ _ t ht)]
      obtain ⟨r1, r2, r3, r4⟩ := ih (a + 1)
        { st with
          calls := st.calls + 1
          authCalls := st.authCalls + 1
          token := some t
          headers :=
            match st.headers with
            | some h =>
                if h.isEmpty then some h
                else some (setKey h "Token" (some t))
            | none => none }
        hle
      exact ⟨r1, by rw [r2]; dsimp only; omega, r3,
        by rw [r4]; dsimp only; omega⟩

/-- Every response the same non-401, non-transient status `≥ 400` (e.g.
404): `raise_for_status()`'s error is caught by the `except` clause, so the
loop retries it like a network failure, sleeping on every attempt except
the last, and ends in the terminal `BirTrashConnectionError` chaining the
recorded HTTP-status failure. -/
lemma run_all_httpErr {β : Type} (cfg : Config) (env : Nat → Outcome β)
    (authEnv : Nat → LoginOutcome) (c : Nat) (bf : Nat → β)
    (henv : ∀ i, env i = .resp c (bf i)) (h401 : c ≠ 401)
    (ht : c ∉ TRANSIENT_STATUS_CODES) (h400 : 400 ≤ c) :
    ∀ (fuel a : Nat) (st : LoopSt), 0 < fuel → a + fuel = cfg.retries + 1 →
      (requestLoop cfg env authEnv fuel a st).1
        = .connectionError
            ("Request failed after " ++ toString (cfg.retries + 1) ++ " attempts")
            (some (.httpStatus c))
      ∧ (requestLoop cfg env authEnv fuel a st).2.calls = st.calls + fuel
      ∧ (requestLoop cfg env authEnv fuel a st).2.sleeps
          = st.sleeps
            ++ (List.range (fuel - 1)).map
                (fun i => cfg.backoff_factor * 2 ^ (a + i))
      ∧ (requestLoop cfg env authEnv fuel a st).2.authCalls = st.authCalls := by
  intro fuel
  induction fuel with
  | zero => intro a st h; omega
  | succ fuel ih =>
      intro a st _ hend
      rw [requestLoop_httpErr cfg env authEnv fuel a st c (bf st.calls)
        (henv st.calls) h401 ht h400]
      cases fuel with
      | zero =>
          rw [if_neg (by omega : ¬ a < cfg.retries), requestLoop_zero]
          simp
      | succ fuel' =>
          rw [if_pos (by omega : a < cfg.retries)]
          obtain ⟨r1, r2, r3, r4⟩ := ih (a + 1)
            { st with
              calls := st.calls + 1
              lastExc := some (.httpStatus c)
              sleeps := st.sleeps ++ [cfg.backoff_factor * 2 ^ a] }
            (Nat.succ_pos fuel') (by omega)
          refine ⟨r1, by rw [r2]; dsimp only; omega, ?_, r4⟩
          rw [r3]
          simpa using delays_assemble cfg.backoff_factor a fuel' st.sleeps

/-! ## Helper lemmas for address normalization -/

lemma normalize_of_trailing (s u : List Char) (d l : Char)
    (h : pyStrip s = u ++ [d, l]) (hd : d.isDigit = true)
    (hl : l.isAlpha = true) :
    _normalize_address s = u ++ [d, ' ', l] := by
  have hrev : (pyStrip s).reverse = l :: d :: u.reverse := by
    rw [h]; simp
  unfold _normalize_address
  rw [hrev]
  simp [hd, hl]

lemma normalize_of_no_trailing (s : List Char)
    (h : ∀ u : List Char, ∀ d l : Char, pyStrip s = u ++ [d, l] →
      ¬(d.isDigit = true ∧ l.isAlpha = true)) :
    _normalize_address s = pyStrip s := by
  unfold _normalize_address
  cases hrev : (pyStrip s).reverse with
  | nil => rfl
  | cons l rest1 =>
      cases rest1 with
      | nil => rfl
      | cons d rest =>
          have hs : pyStrip s = rest.reverse ++ [d, l] := by
            rw [← List.reverse_reverse (pyStrip s), hrev]
            simp
          have hcond := h rest.reverse d l hs
          have hb : ¬(d.isDigit && l.isAlpha) = true := by
            intro hb
            exact hcond (by simpa [Bool.and_eq_true] using hb)
          simp [hb]

/-! ## Claim theorems -/

/-- Claim C2, counterexample: the wire-contract names of the claim
(`applicationId`/`contractorId`, `/properties` with `address`, `/pickups`
with `dateFrom`/`dateTo`/`propertyId`) do not hold of the requests the
client builds: the code uses `applikasjonsId`/`oppdragsgiverId`,
`/eiendommer` with `adresse`, and `/tomminger` with
`datoFra`/`datoTil`/`eiendomId`. -/
theorem c2_counterexample :
    ¬ ((loginRequest ⟨"app", "contr", some "tok"⟩).method = "post"
      ∧ (loginRequest ⟨"app", "contr", some "tok"⟩).url = base_url ++ "/login"
      ∧ (loginRequest ⟨"app", "contr", some "tok"⟩).jsonBody.map Prod.fst
          = ["applicationId", "contractorId"]
      ∧ (searchAddressesRequest ⟨"app", "contr", some "tok"⟩
          "Storgata 1".data).method = "get"
      ∧ (searchAddressesRequest ⟨"app", "contr", some "tok"⟩
          "Storgata 1".data).url = base_url ++ "/properties"
      ∧ (searchAddressesRequest ⟨"app", "contr", some "tok"⟩
          "Storgata 1".data).params.map Prod.fst = ["address"]
      ∧ (getCalendarRequest ⟨"app", "contr", some "tok"⟩ "id1" "2026-01-01"
          "2026-03-01").method = "get"
      ∧ (getCalendarRequest ⟨"app", "contr", some "tok"⟩ "id1" "2026-01-01"
          "2026-03-01").url = base_url ++ "/pickups"
      ∧ (getCalendarRequest ⟨"app", "contr", some "tok"⟩ "id1" "2026-01-01"
          "2026-03-01").params.map Prod.fst
          = ["dateFrom", "dateTo", "propertyId"]) := by
  decide

/-- Claim C2, amended: every outbound request uses the paths and key names
the code actually sends: login is a POST to `/login` with JSON body keys
`applikasjonsId` and `oppdragsgiverId`; address search is a GET to
`/eiendommer` with query parameter `adresse` (carrying the normalized
address); the calendar fetch is a GET to `/tomminger` with query
parameters `datoFra`, `datoTil` and `eiendomId`. -/
theorem c2_wire_contract (c : ClientState) (address : List Char)
    (address_id from_date to_date : String) :
    (loginRequest c).method = "post"
    ∧ (loginRequest c).url = base_url ++ "/login"
    ∧ (loginRequest c).jsonBody
        = [("applikasjonsId", c.app_id), ("oppdragsgiverId", c.contractor_id)]
    ∧ (searchAddressesRequest c address).method = "get"
    ∧ (searchAddressesRequest c address).url = base_url ++ "/eiendommer"
    ∧ (searchAddressesRequest c address).params
        = [("adresse", String.mk (_normalize_address address))]
    ∧ (getCalendarRequest c address_id from_date to_date).method = "get"
    ∧ (getCalendarRequest c address_id from_date to_date).url
        = base_url ++ "/tomminger"
    ∧ (getCalendarRequest c address_id from_date to_date).params
        = [("datoFra", from_date), ("datoTil", to_date),
           ("eiendomId", address_id)] :=
  ⟨rfl, rfl, rfl, rfl, rfl, rfl, rfl, rfl, rfl⟩

/-- Claim C7: `authenticate` fails with an `AuthError` wrapping the cause
on any transport or timeout failure of the login POST; when the login
succeeds but the response headers contain no `Token` field it fails with
the no-token `AuthError` (whose message is the code's
"Authentication succeeded but response contained no Token header");
otherwise it stores the returned token, overwriting any previous token. -/
theorem c7_authenticate_contract :
    (∀ (st : ClientState) (tag : Nat),
      authenticate st (.exc tag) = (.error (.transport (.netExc tag)), st))
    ∧ (∀ (st : ClientState) (status : Nat) (hdrs : List (String × String)),
        status < 400 → getKey "Token" hdrs = none →
        authenticate st (.resp status hdrs) = (.error .noToken, st))
    ∧ (∀ (st : ClientState) (status : Nat) (hdrs : List (String × String))
        (t : String), status < 400 → getKey "Token" hdrs = some t →
        authenticate st (.resp status hdrs)
          = (.ok (), { st with token := some t }))
    ∧ authErrMsg .noToken
        = "Authentication succeeded but response contained no Token header" := by
  refine ⟨fun st tag => rfl, ?_, ?_, rfl⟩
  · intro st status hdrs hlt hnone
    simp [authenticate, if_neg (by omega : ¬ 400 ≤ status), hnone]
  · intro st status hdrs t hlt hsome
    simp [authenticate, if_neg (by omega : ¬ 400 ≤ status), hsome]

/-- Witness for C7: a login answering 200 with a `Token: new` header
overwrites the stored token `"old"`; a 200 with no `Token` header yields
the no-token `AuthError` and leaves the client unchanged. -/
theorem c7_witness :
    authenticate ⟨"app", "contr", some "old"⟩ (.resp 200 [("Token", "new")])
      = (.ok (), ⟨"app", "contr", some "new"⟩)
    ∧ authenticate ⟨"app", "contr", some "old"⟩ (.resp 200 [])
      = (.error .noToken, ⟨"app", "contr", some "old"⟩) :=
  ⟨c7_authenticate_contract.2.2.1 ⟨"app", "contr", some "old"⟩ 200
      [("Token", "new")] "new" (by decide) (by decide),
    c7_authenticate_contract.2.1 ⟨"app", "contr", some "old"⟩ 200 []
      (by decide) (by decide)⟩

/-- Claim C8: address normalization inserts a single separating space
between a digit and a letter exactly when that pair ends the
whitespace-trimmed string, and otherwise returns the trimmed string
unchanged; in particular `"46J" ↦ "46 J"`, `"Storgata 1"` is unchanged,
and `"12B " ↦ "12 B"`. -/
theorem c8_normalize :
    (∀ (s u : List Char) (d l : Char), pyStrip s = u ++ [d, l] →
      d.isDigit = true → l.isAlpha = true →
      _normalize_address s = u ++ [d, ' ', l])
    ∧ (∀ s : List Char,
        (∀ (u : List Char) (d l : Char), pyStrip s = u ++ [d, l] →
          ¬(d.isDigit = true ∧ l.isAlpha = true)) →
        _normalize_address s = pyStrip s)
    ∧ _normalize_address "46J".data = "46 J".data
    ∧ _normalize_address "Storgata 1".data = "Storgata 1".data
    ∧ _normalize_address "12B ".data = "12 B".data :=
  ⟨normalize_of_trailing, normalize_of_no_trailing, by decide, by decide,
    by decide⟩

/-- Witness for C8: the trailing digit–letter clause applied to the
concrete input `"9z"`. -/
theorem c8_witness :
    pyStrip "9z".data = [] ++ ['9', 'z']
    ∧ _normalize_address "9z".data = ['9', ' ', 'z'] :=
  ⟨by decide,
    c8_normalize.1 "9z".data [] '9' 'z' (by decide) (by decide) (by decide)⟩

/-- Claim C9: on a non-empty result list, `search_address` returns the
`id` field of the first result (`[{"id": "X1", "address": "A"}]` yields
`"X1"`), returns `None` rather than an error when the first result has no
`id` field, and raises an `IndexError` on an empty result list. -/
theorem c9_search_address_first :
    (∀ (obj : List (String × String)) (rest : List (List (String × String))),
      search_address_of_result (obj :: rest) = .ok (getKey "id" obj))
    ∧ search_address_of_result [[("id", "X1"), ("address", "A")]]
        = .ok (some "X1")
    ∧ search_address_of_result [[("address", "A")]] = .ok none
    ∧ search_address_of_result [] = .error .indexError :=
  ⟨fun obj rest => rfl, by simp [search_address_of_result, getKey],
    by simp [search_address_of_result, getKey], rfl⟩

/-- Claim C10: whenever `authenticate` raises — transport failure, non-2xx
login response, or missing `Token` header — the stored token (indeed the
whole client state) is left unchanged; it is only replaced on a fully
successful login exchange. -/
theorem c10_token_preserved (st : ClientState) (o : LoginOutcome)
    (e : AuthErr) (st' : ClientState)
    (h : authenticate st o = (.error e, st')) : st' = st := by
  cases o with
  | exc tag =>
      simp [authenticate] at h
      exact h.2.symm
  | resp status hdrs =>
      by_cases h400 : 400 ≤ status
      · simp [authenticate, h400] at h
        exact h.2.symm
      · cases hg : getKey "Token" hdrs with
        | none =>
            simp [authenticate, h400, hg] at h
            exact h.2.symm
        | some t =>
            simp [authenticate, h400, hg] at h

/-- Witness for C10: a 200 login response with no `Token` header leaves
the client's state — in particular its token `"old"` — unchanged. -/
theorem c10_witness :
    (authenticate ⟨"app", "contr", some "old"⟩ (.resp 200 [])).2
      = ⟨"app", "contr", some "old"⟩ :=
  c10_token_preserved ⟨"app", "contr", some "old"⟩ (.resp 200 []) .noToken _
    rfl

/-- Claim C3: when the first `k ≤ retries` responses are transient and the
next response is 200, `_request_with_retry` returns the parsed body after
exactly `k + 1` network calls, having slept exactly `k` times with delays
`b·2^0, …, b·2^(k-1)`; with `k = retries` this is the claim's main case,
and with `k = 0` an immediate 200 yields the body with no retry and no
sleep. -/
theorem c3_transient_then_success {β : Type} (cfg : Config)
    (env : Nat → Outcome β) (authEnv : Nat → LoginOutcome)
    (token0 : Option String)
    (headers0 : Option (List (String × Option String))) (k : Nat) (body : β)
    (hk : k ≤ cfg.retries)
    (htr : ∀ i, i < k → ∃ c b, c ∈ TRANSIENT_STATUS_CODES ∧ env i = .resp c b)
    (h200 : env k = .resp 200 body) :
    (_request_with_retry cfg env authEnv token0 headers0).1 = .success body
    ∧ (_request_with_retry cfg env authEnv token0 headers0).2.calls = k + 1
    ∧ (_request_with_retry cfg env authEnv token0 headers0).2.sleeps
        = (List.range k).map (fun i => cfg.backoff_factor * 2 ^ i)
    ∧ (_request_with_retry cfg env authEnv token0 headers0).2.authCalls
        = 0 := by
  obtain ⟨r1, r2, r3, r4, r5, r6⟩ :=
    run_transient_then_ok cfg env authEnv body k (cfg.retries + 1) 0
      { token := token0, headers := headers0, lastExc := none, calls := 0,
        authCalls := 0, sleeps := [] }
      (by omega)
      (by
        intro i hi
        obtain ⟨c, b, hc, he⟩ := htr i hi
        exact ⟨c, b, hc, by simpa using he⟩)
      (by simpa using h200)
  simp only [_request_with_retry]
  exact ⟨r1, by simpa using r2, by simpa using r3, by simpa using r4⟩

/-- Witness for C3: the concrete scenario of spec section 8 —
`retries = 3, backoff_factor = 2`, three 503 responses then a 200 with
body `42`: four calls, sleeps `2, 4, 8`, no authentication. -/
theorem c3_witness :
    (_request_with_retry cfgW envT200 authEnvFail none
        (some [("Token", some "old")])).1 = .success 42
    ∧ (_request_with_retry cfgW envT200 authEnvFail none
        (some [("Token", some "old")])).2.calls = 4
    ∧ (_request_with_retry cfgW envT200 authEnvFail none
        (some [("Token", some "old")])).2.sleeps = [2, 4, 8]
    ∧ (_request_with_retry cfgW envT200 authEnvFail none
        (some [("Token", some "old")])).2.authCalls = 0 := by
  obtain ⟨r1, r2, r3, r4⟩ :=
    c3_transient_then_success cfgW envT200 authEnvFail none
      (some [("Token", some "old")]) 3 42 (by decide)
      (by
        intro i hi
        refine ⟨503, 0, by decide, ?_⟩
        have h3 : i = 0 ∨ i = 1 ∨ i = 2 := by omega
        rcases h3 with rfl | rfl | rfl <;> rfl)
      (by rfl)
  refine ⟨r1, r2, ?_, r4⟩
  rw [r3]
  norm_num [cfgW, List.range_succ]

/-- Claim C4: when every response is transient, `_request_with_retry`
makes exactly `retries + 1` network calls and raises
`BirTrashConnectionError("Request failed after N attempts")`
(`N = retries + 1`) chaining the failure recorded on the last attempt;
when every attempt is a 401 answered by a successful re-authentication,
the loop likewise exhausts `retries + 1` calls but the chained cause is
`None` (and no sleep ever happened). -/
theorem c4_retry_exhaustion {β : Type} (cfg : Config) (env : Nat → Outcome β)
    (authEnv : Nat → LoginOutcome) (token0 : Option String)
    (headers0 : Option (List (String × Option String))) (sf : Nat → Nat)
    (bf : Nat → β) :
    ((∀ i, env i = .resp (sf i) (bf i)) →
      (∀ i, sf i ∈ TRANSIENT_STATUS_CODES) →
      (_request_with_retry cfg env authEnv token0 headers0).1
        = .connectionError
            ("Request failed after " ++ toString (cfg.retries + 1)
              ++ " attempts")
            (some (.connError
              ("Server returned " ++ toString (sf cfg.retries))))
      ∧ (_request_with_retry cfg env authEnv token0 headers0).2.calls
          = cfg.retries + 1)
    ∧ ((∀ i, env i = .resp 401 (bf i)) →
      (∀ j, (loginToken (authEnv j)).isSome) →
      (_request_with_retry cfg env authEnv token0 headers0).1
        = .connectionError
            ("Request failed after " ++ toString (cfg.retries + 1)
              ++ " attempts")
            none
      ∧ (_request_with_retry cfg env authEnv token0 headers0).2.calls
          = cfg.retries + 1
      ∧ (_request_with_retry cfg env authEnv token0 headers0).2.sleeps = []
      ∧ (_request_with_retry cfg env authEnv token0 headers0).2.authCalls
          = cfg.retries + 1) := by
  constructor
  · intro henv htr
    obtain ⟨r1, r2, r3, r4⟩ :=
      run_all_transient cfg env authEnv sf bf henv htr (cfg.retries + 1) 0
        cfg.retries
        { token := token0, headers := headers0, lastExc := none, calls := 0,
          authCalls := 0, sleeps := [] }
        (by omega) (by dsimp only; omega)
    simp only [_request_with_retry]
    exact ⟨r1, by simpa using r2⟩
  · intro henv hok
    obtain ⟨r1, r2, r3, r4⟩ :=
      run_all_401 cfg env authEnv bf henv hok (cfg.retries + 1) 0
        { token := token0, headers := headers0, lastExc := none, calls := 0,
          authCalls := 0, sleeps := [] }
        rfl
    simp only [_request_with_retry]
    exact ⟨r1, by simpa using r2, by simpa using r3, by simpa using r4⟩

/-- Witness for C4: with `retries = 1`, two 503 responses exhaust the
budget and chain the recorded 503 failure; two 401 responses each answered
by a successful login exhaust the budget with no cause, no sleeps and two
`authenticate()` calls. -/
theorem c4_witness :
    (_request_with_retry cfg1 env503 authEnvFail none
        (some [("Token", some "old")])).1
      = .connectionError "Request failed after 2 attempts"
          (some (.connError "Server returned 503"))
    ∧ (_request_with_retry cfg1 env503 authEnvFail none
        (some [("Token", some "old")])).2.calls = 2
    ∧ (_request_with_retry cfg1 env401 authEnvOk none
        (some [("Token", some "old")])).1
      = .connectionError "Request failed after 2 attempts" none
    ∧ (_request_with_retry cfg1 env401 authEnvOk none
        (some [("Token", some "old")])).2.calls = 2
    ∧ (_request_with_retry cfg1 env401 authEnvOk none
        (some [("Token", some "old")])).2.sleeps = []
    ∧ (_request_with_retry cfg1 env401 authEnvOk none
        (some [("Token", some "old")])).2.authCalls = 2 := by
  obtain ⟨a1, a2⟩ :=
    (c4_retry_exhaustion cfg1 env503 authEnvFail none
        (some [("Token", some "old")]) (fun _ => 503) (fun _ => 0)).1
      (fun i => rfl) (fun i => by decide)
  obtain ⟨b1, b2, b3, b4⟩ :=
    (c4_retry_exhaustion cfg1 env401 authEnvOk none
        (some [("Token", some "old")]) (fun _ => 503) (fun _ => 0)).2
      (fun i => rfl) (fun j => rfl)
  exact ⟨a1, a2, b1, b2, b3, b4⟩

/-- Claim C1, counterexample: with `retries = 1` and every response a 404
(non-2xx, non-401, non-transient), the executor does **not** raise an
HTTP-status error immediately: it makes 2 network calls, sleeps once
(backoff 1·2^0 = 1), and the error finally raised **is** the
`BirTrashConnectionError` class (chaining the caught
`aiohttp.ClientResponseError`), because `raise_for_status()` raises an
`aiohttp.ClientError` subclass that the `except` clause catches. -/
theorem c1_counterexample :
    (_request_with_retry cfg1 env404 authEnvFail none
        (some [("Token", some "old")])).1
      = .connectionError "Request failed after 2 attempts"
          (some (.httpStatus 404))
    ∧ (_request_with_retry cfg1 env404 authEnvFail none
        (some [("Token", some "old")])).2.calls = 2
    ∧ (_request_with_retry cfg1 env404 authEnvFail none
        (some [("Token", some "old")])).2.sleeps = [1]
    ∧ ¬ ((_request_with_retry cfg1 env404 authEnvFail none
        (some [("Token", some "old")])).2.calls = 1
      ∧ (_request_with_retry cfg1 env404 authEnvFail none
        (some [("Token", some "old")])).2.sleeps = []) := by
  norm_num [_request_with_retry, requestLoop, TRANSIENT_STATUS_CODES, cfg1,
    env404, authEnvFail]
  rfl

/-- Claim C1, amended: a response whose status is `≥ 400`, not 401 and not
transient is **retried like a network failure**: the raised
`ClientResponseError` is recorded as the last failure, a backoff sleep
`b·2^attempt` happens on every attempt except the final one, and after
`retries + 1` calls the executor raises `BirTrashConnectionError`
chaining the recorded HTTP-status failure (no immediate, distinct
HTTP-status error escapes). -/
theorem c1_http_error_retried {β : Type} (cfg : Config)
    (env : Nat → Outcome β) (authEnv : Nat → LoginOutcome)
    (token0 : Option String)
    (headers0 : Option (List (String × Option String))) (c : Nat)
    (bf : Nat → β) (henv : ∀ i, env i = .resp c (bf i)) (h401 : c ≠ 401)
    (ht : c ∉ TRANSIENT_STATUS_CODES) (h400 : 400 ≤ c) :
    (_request_with_retry cfg env authEnv token0 headers0).1
      = .connectionError
          ("Request failed after " ++ toString (cfg.retries + 1)
            ++ " attempts")
          (some (.httpStatus c))
    ∧ (_request_with_retry cfg env authEnv token0 headers0).2.calls
        = cfg.retries + 1
    ∧ (_request_with_retry cfg env authEnv token0 headers0).2.sleeps
        = (List.range cfg.retries).map (fun i => cfg.backoff_factor * 2 ^ i)
    ∧ (_request_with_retry cfg env authEnv token0 headers0).2.authCalls
        = 0 := by
  obtain ⟨r1, r2, r3, r4⟩ :=
    run_all_httpErr cfg env authEnv c bf henv h401 ht h400 (cfg.retries + 1)
      0
      { token := token0, headers := headers0, lastExc := none, calls := 0,
        authCalls := 0, sleeps := [] }
      (by omega) (by omega)
  simp only [_request_with_retry]
  exact ⟨r1, by simpa using r2, by simpa using r3, by simpa using r4⟩

/-- Witness for C1 (amended): `retries = 1, backoff_factor = 1`, all
responses 404 — two calls, one sleep of `1`, terminal
`BirTrashConnectionError` chaining the 404 failure. -/
theorem c1_witness :
    (_request_with_retry cfg1 env404 authEnvOk none
        (some [("Token", some "old")])).1
      = .connectionError "Request failed after 2 attempts"
          (some (.httpStatus 404))
    ∧ (_request_with_retry cfg1 env404 authEnvOk none
        (some [("Token", some "old")])).2.calls = 2
    ∧ (_request_with_retry cfg1 env404 authEnvOk none
        (some [("Token", some "old")])).2.sleeps = [1]
    ∧ (_request_with_retry cfg1 env404 authEnvOk none
        (some [("Token", some "old")])).2.authCalls = 0 := by
  obtain ⟨r1, r2, r3, r4⟩ :=
    c1_http_error_retried cfg1 env404 authEnvOk none
      (some [("Token", some "old")]) 404 (fun _ => 0) (fun i => rfl)
      (by decide) (by decide) (by decide)
  refine ⟨r1, r2, ?_, r4⟩
  rw [r3]
  norm_num [cfg1, List.range_succ]

/-- Claim C5: an attempt whose response is 401 calls `authenticate()`
exactly once, performs no backoff sleep, consumes one attempt slot
(one unit of fuel toward the `retries + 1` cap), updates the `Token`
entry of the supplied (non-empty) headers to the newly stored token and
proceeds to the next attempt; and if that `authenticate()` call fails,
the `BirTrashAuthError` propagates to the caller immediately with no
further attempts. -/
theorem c5_reauth_on_401 {β : Type} (cfg : Config) (env : Nat → Outcome β)
    (authEnv : Nat → LoginOutcome) (fuel attempt : Nat) (st : LoopSt)
    (body : β) (ls : Nat) (lh : List (String × String)) (t : String)
    (h0 : List (String × Option String)) (e : AuthErr) (c' : ClientState) :
    (env st.calls = .resp 401 body → authEnv st.authCalls = .resp ls lh →
      ls < 400 → getKey "Token" lh = some t → st.headers = some h0 →
      h0 ≠ [] →
      requestLoop cfg env authEnv (fuel + 1) attempt st
        = requestLoop cfg env authEnv fuel (attempt + 1)
            { token := some t
              headers := some (setKey h0 "Token" (some t))
              lastExc := st.lastExc
              calls := st.calls + 1
              authCalls := st.authCalls + 1
              sleeps := st.sleeps })
    ∧ (env st.calls = .resp 401 body →
      authenticate ⟨cfg.app_id, cfg.contractor_id, st.token⟩
          (authEnv st.authCalls) = (.error e, c') →
      requestLoop cfg env authEnv (fuel + 1) attempt st
        = (.authError e,
            { st with
              calls := st.calls + 1
              authCalls := st.authCalls + 1 })) := by
  constructor
  · intro h henv hlt htok hh hne
    have hlt' : loginToken (authEnv st.authCalls) = some t := by
      simp [loginToken, henv, if_neg (by omega : ¬ 400 ≤ ls), htok]
    rw [requestLoop_auth_ok cfg env authEnv fuel attempt st body
      ⟨cfg.app_id, cfg.contractor_id, some t⟩ h
      (authenticate_of_loginToken_some _ _ t hlt')]
    have hieq : h0.isEmpty = false := by
      cases h0 with
      | nil => exact absurd rfl hne
      | cons a l => rfl
    congr 1
    rw [hh]
    simp [hieq]
  · intro h hauth
    exact requestLoop_auth_err cfg env authEnv fuel attempt st body e c' h
      hauth

/-- Witness for C5: from the mid-run state `st0` (token `"old"`, headers
`{Token: old}`), a 401 with a successful re-login to token `"new"`
advances one attempt with no sleep, one `authenticate()` call, and the
headers' `Token` entry rewritten; with a failing login the
`BirTrashAuthError` is returned at once. -/
theorem c5_witness :
    requestLoop cfg1 env401then200 authEnvOk 2 0 st0
      = requestLoop cfg1 env401then200 authEnvOk 1 1
          { token := some "new"
            headers := some (setKey [("Token", some "old")] "Token"
              (some "new"))
            lastExc := none
            calls := 1
            authCalls := 1
            sleeps := [] }
    ∧ requestLoop cfg1 env401then200 authEnvFail 2 0 st0
      = (.authError (.transport (.netExc 9)),
          { st0 with calls := 1, authCalls := 1 }) :=
  ⟨(c5_reauth_on_401 cfg1 env401then200 authEnvOk 1 0 st0 0 200
      [("Token", "new")] "new" [("Token", some "old")] .noToken
      ⟨"app", "contr", some "old"⟩).1
    rfl rfl (by decide) (by decide) rfl (by decide),
    (c5_reauth_on_401 cfg1 env401then200 authEnvFail 1 0 st0 0 200
      [("Token", "new")] "new" [("Token", some "old")]
      (.transport (.netExc 9)) ⟨"app", "contr", some "old"⟩).2
    rfl rfl⟩

/-- Claim C6: an attempt with a transient status `c` records
`BirTrashConnectionError("Server returned c")` as the last failure and
sleeps `b·2^attempt` before moving on, even when it is the final attempt
(the sleep is recorded before the terminal `BirTrashConnectionError` is
raised); whereas a network/timeout exception on the final attempt
(`attempt = retries`, the only index at which the loop can end) raises
the terminal error with no sleep. -/
theorem c6_transient_backoff {β : Type} (cfg : Config)
    (env : Nat → Outcome β) (authEnv : Nat → LoginOutcome)
    (fuel attempt : Nat) (st : LoopSt) (c : Nat) (body : β) (tag : Nat) :
    (env st.calls = .resp c body → c ∈ TRANSIENT_STATUS_CODES →
      requestLoop cfg env authEnv (fuel + 1) attempt st
        = requestLoop cfg env authEnv fuel (attempt + 1)
            { st with
              calls := st.calls + 1
              lastExc :=
                some (.connError ("Server returned " ++ toString c))
              sleeps := st.sleeps ++ [cfg.backoff_factor * 2 ^ attempt] })
    ∧ (env st.calls = .resp c body → c ∈ TRANSIENT_STATUS_CODES →
      (requestLoop cfg env authEnv 1 attempt st).2.sleeps
          = st.sleeps ++ [cfg.backoff_factor * 2 ^ attempt]
      ∧ (requestLoop cfg env authEnv 1 attempt st).1
          = .connectionError
              ("Request failed after " ++ toString (cfg.retries + 1)
                ++ " attempts")
              (some (.connError ("Server returned " ++ toString c))))
    ∧ (env st.calls = .exc tag →
      requestLoop cfg env authEnv 1 cfg.retries st
        = (.connectionError
            ("Request failed after " ++ toString (cfg.retries + 1)
              ++ " attempts")
            (some (.netExc tag)),
          { st with
            calls := st.calls + 1
            lastExc := some (.netExc tag) })) := by
  refine ⟨fun h hc =>
    requestLoop_transient cfg env authEnv fuel attempt st c body h hc,
    fun h hc => ?_, fun h => ?_⟩
  · rw [requestLoop_transient cfg env authEnv 0 attempt st c body h hc,
      requestLoop_zero]
    exact ⟨rfl, rfl⟩
  · rw [requestLoop_exc cfg env authEnv 0 cfg.retries st tag h,
      requestLoop_zero]
    simp [Nat.lt_irrefl]

/-- Witness for C6: with `retries = 1, backoff_factor = 1` and the loop at
its final attempt (index 1, one unit of fuel), a 503 still records a sleep
of `1·2^1 = 2` before the terminal error, while a transport exception
raises the terminal error with no sleep recorded. -/
theorem c6_witness :
    ((requestLoop cfg1 env503 authEnvFail 1 1 st0).2.sleeps = [2]
      ∧ (requestLoop cfg1 env503 authEnvFail 1 1 st0).1
          = .connectionError "Request failed after 2 attempts"
              (some (.connError "Server returned 503")))
    ∧ requestLoop cfg1 envExc authEnvFail 1 1 st0
        = (.connectionError "Request failed after 2 attempts"
            (some (.netExc 5)),
          { st0 with calls := 1, lastExc := some (.netExc 5) }) := by
  have h1 := (c6_transient_backoff cfg1 env503 authEnvFail 0 1 st0 503 0
    5).2.1 rfl (by decide)
  have h2 := (c6_transient_backoff cfg1 envExc authEnvFail 0 1 st0 503 0
    5).2.2 rfl
  refine ⟨⟨?_, h1.2⟩, h2⟩
  rw [h1.1]
  norm_num [st0, cfg1]

end BirTrash
